import Mathlib

/-!
Verification development for the fraud-detection service.

Shallow embedding notes.
* Scores, amounts and coordinates are modelled as rationals; timestamps are
  integers (epoch milliseconds).  JavaScript numbers are IEEE doubles; all
  arithmetic appearing in the scoring path (sums of the constants 0.8, 0.7,
  0.6, 0.5, 0.3, the products by 0.6 and 0.4, and comparisons against
  literal thresholds) is exact in ℚ.
* The Redis sorted-set member string "amount:timestamp" is modelled as the
  pair (amount, timestamp); the geo value string "lat:lon" is modelled as
  the pair (lat, lon).  Both encodings are bijective, and the code only
  ever parses them back into the components.
* zrangebyscore returns the members whose score lies in the closed range;
  the code only uses the length and the multiset of amounts of the result,
  both independent of the ordering, so the stored order is returned.
* Key TTLs (expire / setex) only affect expiry between requests and are not
  modelled; within one request they do not change any read.
* calculateDistance is double-precision trigonometry (haversine); it is
  modelled as an explicit distance-function parameter dist, and every
  theorem about the geo rule is quantified over dist.
* The conversion from epoch milliseconds to local hour and day of week
  (Date.getHours, Date.getDay) is modelled as oracle inputs in Env.
-/

/-- Relevant fields of config.thresholds and config.features from
config/config.ts. -/
structure Config where
  maxTransactionAmount : ℚ
  maxVelocityPerMinute : Nat
  nightTimeStart : Nat
  nightTimeEnd : Nat
  enableMLModel : Bool
deriving DecidableEq

/-- Default configuration values from config/config.ts. -/
def defaultConfig : Config :=
  { maxTransactionAmount := 1000000
    maxVelocityPerMinute := 5
    nightTimeStart := 23
    nightTimeEnd := 5
    enableMLModel := true }

/-- The Redis state used by the service, split by key namespace: sorted
sets velocity:u and amount:u hold (member, score) entries with member a
pair (amount, timestamp); device:d and user_devices:u:24h are sets;
geo:u is an optional string holding a (lat, lon) pair; tx:u:24h and
tx:u:7d are lists whose JSON elements are read back only for their
amount field. -/
structure KVState where
  velocity : String → List ((ℚ × ℤ) × ℤ)
  amountHist : String → List ((ℚ × ℤ) × ℤ)
  device : String → List String
  userDevices24h : String → List String
  geo : String → Option (ℚ × ℚ)
  tx24h : String → List ℚ
  tx7d : String → List ℚ

/-- The empty Redis state: every key is absent. -/
def kvEmpty : KVState :=
  { velocity := fun _ => []
    amountHist := fun _ => []
    device := fun _ => []
    userDevices24h := fun _ => []
    geo := fun _ => none
    tx24h := fun _ => []
    tx7d := fun _ => [] }

/-- Redis ZADD on one sorted set: update the score of an existing member,
otherwise append the new entry. -/
def zadd (zset : List ((ℚ × ℤ) × ℤ)) (score : ℤ) (member : ℚ × ℤ) :
    List ((ℚ × ℤ) × ℤ) :=
  if member ∈ zset.map Prod.fst then
    zset.map (fun e => if e.1 = member then (member, score) else e)
  else
    zset ++ [(member, score)]

/-- Redis ZRANGEBYSCORE on one sorted set: the members whose score lies in
the closed range. -/
def zrangebyscore (zset : List ((ℚ × ℤ) × ℤ)) (lo hi : ℤ) : List (ℚ × ℤ) :=
  (zset.filter (fun e => lo ≤ e.2 ∧ e.2 ≤ hi)).map Prod.fst

/-- Redis SADD on one set: append the value when it is not yet a member. -/
def sadd (s : List String) (v : String) : List String :=
  if v ∈ s then s else s ++ [v]

/-- Result shape of each rule check in FraudDetectionService: a score and
an optional reason. -/
structure RuleCheck where
  score : ℚ
  reason : Option String
deriving DecidableEq

/-- FraudDetectionService.checkVelocity: add the current transaction to
the velocity sorted set, then count the entries of the last minute and of
the last hour; the per-minute rule is checked first and returns early. -/
def checkVelocity (cfg : Config) (st : KVState) (now : ℤ) (userId : String)
    (amount : ℚ) : KVState × RuleCheck :=
  let minuteAgo := now - 60000
  let hourAgo := now - 3600000
  let zset := zadd (st.velocity userId) now (amount, now)
  let st1 : KVState :=
    { st with velocity := fun k => if k = userId then zset else st.velocity k }
  let recentTxns := zrangebyscore zset minuteAgo now
  let hourlyTxns := zrangebyscore zset hourAgo now
  if cfg.maxVelocityPerMinute < recentTxns.length then
    (st1, ⟨0.8, some "High transaction velocity detected (per minute)"⟩)
  else if 20 < hourlyTxns.length then
    (st1, ⟨0.6, some "High transaction velocity detected (per hour)"⟩)
  else
    (st1, ⟨0, none⟩)

/-- FraudDetectionService.checkAmountPatterns: read the 24h amount window;
when it is non-empty, test the spike condition and then the round-number
condition, each returning early without storing; otherwise store the
current amount.  The JavaScript test amount % 10000 === 0 holds exactly
when amount / 10000 is an integer. -/
def checkAmountPatterns (st : KVState) (now : ℤ) (userId : String)
    (amount : ℚ) : KVState × RuleCheck :=
  let dayAgo := now - 86400000
  let amounts := (zrangebyscore (st.amountHist userId) dayAgo now).map Prod.fst
  let store : KVState :=
    { st with amountHist := fun k =>
        if k = userId then zadd (st.amountHist userId) now (amount, now)
        else st.amountHist k }
  if 0 < amounts.length then
    let avgAmount := amounts.sum / (amounts.length : ℚ)
    if avgAmount * 10 < amount ∧ 100000 < amount then
      (st, ⟨0.7, some "Transaction amount significantly higher than usual pattern"⟩)
    else if (amount / 10000).den = 1 ∧ 50000 ≤ amount then
      (st, ⟨0.3, some "Round number transaction detected"⟩)
    else
      (store, ⟨0, none⟩)
  else
    (store, ⟨0, none⟩)

/-- FraudDetectionService.checkDeviceRisk: read the member set of the
device key, add the current user, and flag when the set was non-empty and
did not already contain the user. -/
def checkDeviceRisk (st : KVState) (userId deviceId : String) :
    KVState × RuleCheck :=
  let userIds := st.device deviceId
  let st1 : KVState :=
    { st with device := fun k =>
        if k = deviceId then sadd (st.device deviceId) userId
        else st.device k }
  if userIds ≠ [] ∧ userId ∉ userIds then
    (st1, ⟨0.7, some "Device associated with multiple users"⟩)
  else
    (st1, ⟨0, none⟩)

/-- FraudDetectionService.checkGeoRisk, with the haversine computation
abstracted into the parameter dist: when a previous location exists and
the distance exceeds 100 km the rule fires and the function returns
early, so the geo key keeps its previous value; otherwise the geo key is
set to the new location. -/
def checkGeoRisk (dist : ℚ × ℚ → ℚ × ℚ → ℚ) (st : KVState) (userId : String)
    (latitude longitude : ℚ) : KVState × RuleCheck :=
  match st.geo userId with
  | some lastLocation =>
      if 100 < dist (latitude, longitude) lastLocation then
        (st, ⟨0.6, some "Unusual geographical location"⟩)
      else
        ({ st with geo := fun k =>
            if k = userId then some (latitude, longitude) else st.geo k },
         ⟨0, none⟩)
  | none =>
      ({ st with geo := fun k =>
          if k = userId then some (latitude, longitude) else st.geo k },
       ⟨0, none⟩)

/-- Accumulation step of detectFraud for one rule check: when the score is
positive it is added to the running total and the reason, when present,
is pushed onto the reasons list. -/
def applyCheck (acc : ℚ × List String) (c : RuleCheck) : ℚ × List String :=
  if 0 < c.score then
    (acc.1 + c.score,
     match c.reason with
     | some r => acc.2 ++ [r]
     | none => acc.2)
  else acc

/-- Return shape of FraudDetectionService.detectFraud (the field name
isFreudulent reproduces the source). -/
structure DetectResult where
  isFreudulent : Bool
  riskScore : ℚ
  reasons : List String
deriving DecidableEq

/-- Environment inputs of one request: Date.now in epoch milliseconds and
the oracle values of Date.getHours and Date.getDay. -/
structure Env where
  now : ℤ
  hour : Nat
  dayOfWeek : Nat
deriving DecidableEq

/-- Request body of the /check endpoint (fields read by the service). -/
structure RequestBody where
  userId : String
  amount : ℚ
  transactionType : String
  deviceId : String
  location : Option (ℚ × ℚ)
deriving DecidableEq

/-- FraudDetectionService.detectFraud: run checkVelocity, checkDeviceRisk,
checkGeoRisk (only when a location is present), the inline amount
threshold check and the inline night-time check, sum the positive
contributions, push the reasons, and clamp the total with min to 1.
checkAmountPatterns is defined in the service but never invoked here. -/
def detectFraud (cfg : Config) (dist : ℚ × ℚ → ℚ × ℚ → ℚ) (st : KVState)
    (env : Env) (tx : RequestBody) : KVState × DetectResult :=
  let v := checkVelocity cfg st env.now tx.userId tx.amount
  let acc1 := applyCheck (0, []) v.2
  let d := checkDeviceRisk v.1 tx.userId tx.deviceId
  let acc2 := applyCheck acc1 d.2
  let g :=
    match tx.location with
    | some loc =>
        let gr := checkGeoRisk dist d.1 tx.userId loc.1 loc.2
        (gr.1, applyCheck acc2 gr.2)
    | none => (d.1, acc2)
  let amountCheck : RuleCheck :=
    if cfg.maxTransactionAmount < tx.amount then
      ⟨0.5, some "Transaction amount exceeds threshold"⟩
    else ⟨0, none⟩
  let acc4 := applyCheck g.2 amountCheck
  let nightCheck : RuleCheck :=
    if cfg.nightTimeStart ≤ env.hour ∨ env.hour ≤ cfg.nightTimeEnd then
      ⟨0.3, some "Night time transaction"⟩
    else ⟨0, none⟩
  let acc5 := applyCheck acc4 nightCheck
  let normalizedScore := min acc5.1 1
  (g.1,
   { isFreudulent := decide (0.7 ≤ normalizedScore)
     riskScore := normalizedScore
     reasons := acc5.2 })

/-- MLService.FEATURE_STATS in feature order: the (mean, std) pairs used
for z-score normalization. -/
def FEATURE_STATS : List (ℚ × ℚ) :=
  [(50000, 200000), (12, 6.93), (3, 2), (0.1, 0.3), (1.2, 0.5),
   (2.5, 3.2), (45000, 180000), (12, 15), (48000, 190000), (1.1, 0.4)]

/-- MLService.preprocessFeatures: build the raw length-10 feature list
from the transaction and the Redis aggregates (empty history gives raw
zeros), then z-score-normalize each entry with FEATURE_STATS.  All ten
feature names are present in FEATURE_STATS, so the divide-by-1000
fallback branch of the source is dead. -/
def preprocessFeatures (st : KVState) (env : Env) (tx : RequestBody) :
    List ℚ :=
  let userCount := (st.device tx.deviceId).length
  let recentTxs24h := st.tx24h tx.userId
  let txCount24h := recentTxs24h.length
  let recentTxs7d := st.tx7d tx.userId
  let txCount7d := recentTxs7d.length
  let avgAmount24h :=
    if 0 < recentTxs24h.length then
      recentTxs24h.sum / (recentTxs24h.length : ℚ)
    else 0
  let avgAmount7d :=
    if 0 < recentTxs7d.length then
      recentTxs7d.sum / (recentTxs7d.length : ℚ)
    else 0
  let uniqueDevices24h := (st.userDevices24h tx.userId).length
  let features : List ℚ :=
    [tx.amount, (env.hour : ℚ), (env.dayOfWeek : ℚ),
     if userCount = 0 then 1 else 0, (userCount : ℚ), (txCount24h : ℚ),
     avgAmount24h, (txCount7d : ℚ), avgAmount7d, (uniqueDevices24h : ℚ)]
  (features.zip FEATURE_STATS).map (fun p => (p.1 - p.2.1) / p.2.2)

/-- MLService.fallbackRiskScore: the deterministic amount-bucket score
used when the model is unavailable. -/
def fallbackRiskScore (amount : ℚ) : ℚ :=
  if 1000000 < amount then 0.9
  else if 500000 < amount then 0.7
  else if 100000 < amount then 0.5
  else 0.2

/-- MLService.predictRisk: with no model loaded, return the fallback
score; with a model, apply it to the preprocessed features.  The NaN
guard of the source is vacuous over ℚ, where every value is finite. -/
def predictRisk (model : Option (List ℚ → ℚ)) (st : KVState) (env : Env)
    (tx : RequestBody) : ℚ :=
  match model with
  | none => fallbackRiskScore tx.amount
  | some f => f (preprocessFeatures st env tx)

/-- Persisted transaction record fields relevant to the claims. -/
structure TxRecord where
  riskScore : ℚ
  status : String
deriving DecidableEq

/-- Response body of the /check endpoint. -/
structure CheckResponse where
  riskScore : ℚ
  isHighRisk : Bool
  reasons : List String
  recommendedAction : String
deriving DecidableEq

/-- Outcome of the /check handler: the Redis state after scoring, the
persisted transaction record, and the HTTP response. -/
structure CheckOutcome where
  state : KVState
  record : TxRecord
  response : CheckResponse

/-- The /check handler from routes/fraudDetection: run detectFraud, then
predictRisk, combine the two scores with weights 0.6 and 0.4 (the source
applies no clamp here), persist the record with status FLAGGED when the
final score reaches 0.7, and answer with the same threshold for
isHighRisk and the recommended action. -/
def checkEndpoint (cfg : Config) (dist : ℚ × ℚ → ℚ × ℚ → ℚ)
    (model : Option (List ℚ → ℚ)) (st : KVState) (env : Env)
    (tx : RequestBody) : CheckOutcome :=
  let rb := detectFraud cfg dist st env tx
  let mlRiskScore := predictRisk model rb.1 env tx
  let finalRiskScore := rb.2.riskScore * 0.6 + mlRiskScore * 0.4
  { state := rb.1
    record :=
      { riskScore := finalRiskScore
        status := if 0.7 ≤ finalRiskScore then "FLAGGED" else "PENDING" }
    response :=
      { riskScore := finalRiskScore
        isHighRisk := decide (0.7 ≤ finalRiskScore)
        reasons := rb.2.reasons
        recommendedAction := if 0.7 ≤ finalRiskScore then "DENY" else "ALLOW" } }

/-- The validateTransaction middleware: JavaScript truthiness makes the
empty string and the number 0 count as missing, for the required fields
and for the latitude and longitude of a present location object. -/
def validateTransaction (b : RequestBody) : Option String :=
  if b.userId = "" ∨ b.amount = 0 ∨ b.transactionType = "" ∨ b.deviceId = ""
  then some "Missing required fields"
  else
    match b.location with
    | some loc =>
        if loc.1 = 0 ∨ loc.2 = 0 then some "Invalid location format" else none
    | none => none

/-- Outcome of the /check route including the validation middleware. -/
structure RouteOutcome where
  state : KVState
  saved : Option TxRecord
  httpStatus : Nat
  response : Option CheckResponse

/-- The /check route: the validation middleware runs first and, on
failure, answers 400 before the handler touches any state. -/
def checkRoute (cfg : Config) (dist : ℚ × ℚ → ℚ × ℚ → ℚ)
    (model : Option (List ℚ → ℚ)) (st : KVState) (env : Env)
    (tx : RequestBody) : RouteOutcome :=
  match validateTransaction tx with
  | some _ => { state := st, saved := none, httpStatus := 400, response := none }
  | none =>
      let out := checkEndpoint cfg dist model st env tx
      { state := out.state
        saved := some out.record
        httpStatus := 200
        response := some out.response }

/-- Outcome of the /report-fraud route: the transaction store, the model
version counter, and the HTTP status. -/
structure ReportOutcome where
  db : String → Option TxRecord
  version : Nat
  httpStatus : Nat

/-- The /report-fraud route: validate the body, look up the transaction
(404 when absent), persist the status change, then run the model update;
MLService.updateModelWithTransaction throws when no model is loaded, and
the catch block answers 500 without rolling back the saved status. -/
def reportFraud (modelLoaded : Bool) (db : String → Option TxRecord)
    (version : Nat) (transactionId : String) (wasActuallyFraud : Bool) :
    ReportOutcome :=
  if transactionId = "" then
    { db := db, version := version, httpStatus := 400 }
  else
    match db transactionId with
    | none => { db := db, version := version, httpStatus := 404 }
    | some tx =>
        let tx1 : TxRecord :=
          { tx with status := if wasActuallyFraud then "DENIED" else "APPROVED" }
        let db1 : String → Option TxRecord :=
          fun id => if id = transactionId then some tx1 else db id
        if modelLoaded then
          { db := db1, version := version + 1, httpStatus := 200 }
        else
          { db := db1, version := version, httpStatus := 500 }

/-- Clamp of a value to a closed interval, as written in the spec. -/
def clamp (v lo hi : ℚ) : ℚ := max lo (min v hi)

lemma applyCheck_fst (acc : ℚ × List String) (c : RuleCheck) :
    (applyCheck acc c).1 = if 0 < c.score then acc.1 + c.score else acc.1 := by
  unfold applyCheck
  split_ifs <;> rfl

lemma applyCheck_fst_nonneg (acc : ℚ × List String) (c : RuleCheck)
    (h : 0 ≤ acc.1) : 0 ≤ (applyCheck acc c).1 := by
  rw [applyCheck_fst]
  split_ifs with hc
  · linarith
  · exact h

lemma mem_applyCheck {s : String} (acc : ℚ × List String) (c : RuleCheck)
    (h : s ∈ (applyCheck acc c).2) : s ∈ acc.2 ∨ c.reason = some s := by
  unfold applyCheck at h
  split_ifs at h with hc
  · cases hr : c.reason with
    | none => rw [hr] at h; exact Or.inl h
    | some r =>
        rw [hr] at h
        simp only [List.mem_append, List.mem_singleton] at h
        rcases h with h | h
        · exact Or.inl h
        · exact Or.inr (by rw [h])
  · exact Or.inl h

lemma checkVelocity_reason (cfg : Config) (st : KVState) (now : ℤ)
    (userId : String) (amount : ℚ) {r : String}
    (h : (checkVelocity cfg st now userId amount).2.reason = some r) :
    r = "High transaction velocity detected (per minute)" ∨
      r = "High transaction velocity detected (per hour)" := by
  unfold checkVelocity at h
  dsimp only at h
  split_ifs at h <;> simp_all

lemma checkDeviceRisk_reason (st : KVState) (userId deviceId : String)
    {r : String}
    (h : (checkDeviceRisk st userId deviceId).2.reason = some r) :
    r = "Device associated with multiple users" := by
  unfold checkDeviceRisk at h
  dsimp only at h
  split_ifs at h <;> simp_all

lemma checkGeoRisk_reason (dist : ℚ × ℚ → ℚ × ℚ → ℚ) (st : KVState)
    (userId : String) (latitude longitude : ℚ) {r : String}
    (h : (checkGeoRisk dist st userId latitude longitude).2.reason = some r) :
    r = "Unusual geographical location" := by
  unfold checkGeoRisk at h
  rcases hg : st.geo userId with _ | last <;> rw [hg] at h <;> dsimp only at h
  · simp_all
  · split_ifs at h <;> simp_all

lemma detectFraud_riskScore_nonneg (cfg : Config)
    (dist : ℚ × ℚ → ℚ × ℚ → ℚ) (st : KVState) (env : Env)
    (tx : RequestBody) :
    0 ≤ (detectFraud cfg dist st env tx).2.riskScore := by
  obtain ⟨uid, amt, ttype, did, loc⟩ := tx
  unfold detectFraud
  rcases loc with _ | loc <;> dsimp only
  · exact le_min (applyCheck_fst_nonneg _ _ (applyCheck_fst_nonneg _ _
      (applyCheck_fst_nonneg _ _ (applyCheck_fst_nonneg _ _ le_rfl))))
      zero_le_one
  · exact le_min (applyCheck_fst_nonneg _ _ (applyCheck_fst_nonneg _ _
      (applyCheck_fst_nonneg _ _ (applyCheck_fst_nonneg _ _
        (applyCheck_fst_nonneg _ _ le_rfl))))) zero_le_one

lemma detectFraud_riskScore_le_one (cfg : Config)
    (dist : ℚ × ℚ → ℚ × ℚ → ℚ) (st : KVState) (env : Env)
    (tx : RequestBody) :
    (detectFraud cfg dist st env tx).2.riskScore ≤ 1 := by
  obtain ⟨uid, amt, ttype, did, loc⟩ := tx
  unfold detectFraud
  rcases loc with _ | loc <;> dsimp only <;> exact min_le_right _ 1

lemma detectFraud_reasons_subset (cfg : Config)
    (dist : ℚ × ℚ → ℚ × ℚ → ℚ) (st : KVState) (env : Env)
    (tx : RequestBody) {s : String}
    (h : s ∈ (detectFraud cfg dist st env tx).2.reasons) :
    s = "High transaction velocity detected (per minute)" ∨
    s = "High transaction velocity detected (per hour)" ∨
    s = "Device associated with multiple users" ∨
    s = "Unusual geographical location" ∨
    s = "Transaction amount exceeds threshold" ∨
    s = "Night time transaction" := by
  obtain ⟨uid, amt, ttype, did, loc⟩ := tx
  unfold detectFraud at h
  rcases loc with _ | loc <;> dsimp only at h
  · rcases mem_applyCheck _ _ h with h4 | hnight
    · rcases mem_applyCheck _ _ h4 with h3 | hamt
      · rcases mem_applyCheck _ _ h3 with h2 | hdev
        · rcases mem_applyCheck _ _ h2 with h1 | hvel
          · simp at h1
          · rcases checkVelocity_reason _ _ _ _ _ hvel with hv | hv
            · exact Or.inl hv
            · exact Or.inr (Or.inl hv)
        · exact Or.inr (Or.inr (Or.inl (checkDeviceRisk_reason _ _ _ hdev)))
      · split_ifs at hamt <;> simp_all
    · split_ifs at hnight <;> simp_all
  · rcases mem_applyCheck _ _ h with h4 | hnight
    · rcases mem_applyCheck _ _ h4 with h3 | hamt
      · rcases mem_applyCheck _ _ h3 with h2 | hgeo
        · rcases mem_applyCheck _ _ h2 with h1 | hdev
          · rcases mem_applyCheck _ _ h1 with h0 | hvel
            · simp at h0
            · rcases checkVelocity_reason _ _ _ _ _ hvel with hv | hv
              · exact Or.inl hv
              · exact Or.inr (Or.inl hv)
          · exact Or.inr (Or.inr (Or.inl (checkDeviceRisk_reason _ _ _ hdev)))
        · exact Or.inr (Or.inr (Or.inr (Or.inl
            (checkGeoRisk_reason _ _ _ _ _ hgeo))))
      · split_ifs at hamt <;> simp_all
    · split_ifs at hnight <;> simp_all

lemma predictRisk_bounds (model : Option (List ℚ → ℚ)) (st : KVState)
    (env : Env) (tx : RequestBody)
    (hm : ∀ f ∈ model, ∀ v, 0 ≤ f v ∧ f v ≤ 1) :
    0 ≤ predictRisk model st env tx ∧ predictRisk model st env tx ≤ 1 := by
  cases model with
  | none =>
      unfold predictRisk fallbackRiskScore
      split_ifs <;> norm_num
  | some f =>
      exact hm f (by simp) _

lemma checkVelocity_state (cfg : Config) (st : KVState) (now : ℤ)
    (userId : String) (amount : ℚ) :
    (checkVelocity cfg st now userId amount).1.velocity userId =
      zadd (st.velocity userId) now (amount, now) := by
  unfold checkVelocity
  dsimp only
  split_ifs <;> simp

lemma zrangebyscore_append (a b : List ((ℚ × ℤ) × ℤ)) (lo hi : ℤ) :
    zrangebyscore (a ++ b) lo hi =
      zrangebyscore a lo hi ++ zrangebyscore b lo hi := by
  unfold zrangebyscore
  rw [List.filter_append, List.map_append]

lemma zadd_of_fresh (zset : List ((ℚ × ℤ) × ℤ)) (score : ℤ)
    (member : ℚ × ℤ) (h : member ∉ zset.map Prod.fst) :
    zadd zset score member = zset ++ [(member, score)] := by
  unfold zadd
  rw [if_neg h]

/-- C1: for every scored transaction whose model score lies in the unit
interval, the final risk score returned by the /check endpoint equals
clamp(0.6 * ruleScore + 0.4 * modelScore, 0, 1), and it lies in [0, 1].
The source applies no clamp, but both scores are in [0, 1], so the
convex combination already is. -/
theorem fusion_clamped_and_bounded (cfg : Config)
    (dist : ℚ × ℚ → ℚ × ℚ → ℚ) (model : Option (List ℚ → ℚ)) (st : KVState)
    (env : Env) (tx : RequestBody)
    (hm : ∀ f ∈ model, ∀ v, 0 ≤ f v ∧ f v ≤ 1) :
    (checkEndpoint cfg dist model st env tx).response.riskScore =
      clamp (0.6 * (detectFraud cfg dist st env tx).2.riskScore +
        0.4 * predictRisk model (detectFraud cfg dist st env tx).1 env tx)
        0 1 ∧
    0 ≤ (checkEndpoint cfg dist model st env tx).response.riskScore ∧
    (checkEndpoint cfg dist model st env tx).response.riskScore ≤ 1 := by
  have hr0 := detectFraud_riskScore_nonneg cfg dist st env tx
  have hr1 := detectFraud_riskScore_le_one cfg dist st env tx
  have hml := predictRisk_bounds model (detectFraud cfg dist st env tx).1
    env tx hm
  have hkey : (checkEndpoint cfg dist model st env tx).response.riskScore =
      (detectFraud cfg dist st env tx).2.riskScore * 0.6 +
        predictRisk model (detectFraud cfg dist st env tx).1 env tx * 0.4 :=
    rfl
  set r := (detectFraud cfg dist st env tx).2.riskScore with hr
  set m := predictRisk model (detectFraud cfg dist st env tx).1 env tx with hmv
  have hx0 : 0 ≤ 0.6 * r + 0.4 * m := by
    obtain ⟨hm0, hm1⟩ := hml
    nlinarith
  have hx1 : 0.6 * r + 0.4 * m ≤ 1 := by
    obtain ⟨hm0, hm1⟩ := hml
    nlinarith
  refine ⟨?_, ?_, ?_⟩
  · rw [hkey]
    unfold clamp
    rw [min_eq_left hx1, max_eq_right hx0]
    ring
  · rw [hkey]; linarith
  · rw [hkey]; linarith

theorem fusion_clamped_and_bounded_witness :
    (checkEndpoint defaultConfig (fun _ _ => 0) (some (fun _ => 1/2))
        kvEmpty ⟨0, 12, 3⟩ ⟨"u1", 5000, "TRANSFER", "d1", none⟩).response.riskScore =
      clamp (0.6 * (detectFraud defaultConfig (fun _ _ => 0) kvEmpty
          ⟨0, 12, 3⟩ ⟨"u1", 5000, "TRANSFER", "d1", none⟩).2.riskScore +
        0.4 * predictRisk (some (fun _ => 1/2))
          (detectFraud defaultConfig (fun _ _ => 0) kvEmpty ⟨0, 12, 3⟩
            ⟨"u1", 5000, "TRANSFER", "d1", none⟩).1 ⟨0, 12, 3⟩
          ⟨"u1", 5000, "TRANSFER", "d1", none⟩) 0 1 ∧
    0 ≤ (checkEndpoint defaultConfig (fun _ _ => 0) (some (fun _ => 1/2))
        kvEmpty ⟨0, 12, 3⟩ ⟨"u1", 5000, "TRANSFER", "d1", none⟩).response.riskScore ∧
    (checkEndpoint defaultConfig (fun _ _ => 0) (some (fun _ => 1/2))
        kvEmpty ⟨0, 12, 3⟩ ⟨"u1", 5000, "TRANSFER", "d1", none⟩).response.riskScore ≤ 1 :=
  fusion_clamped_and_bounded defaultConfig (fun _ _ => 0)
    (some (fun _ => 1/2)) kvEmpty ⟨0, 12, 3⟩
    ⟨"u1", 5000, "TRANSFER", "d1", none⟩
    (by
      intro f hf v
      simp only [Option.mem_def, Option.some.injEq] at hf
      subst hf
      norm_num)

/-- C2: the /check endpoint computes isHighRisk, the recommended action
and the persisted status from the same comparison of the final risk
score against the 0.7 threshold: isHighRisk holds exactly when the score
reaches 0.7, the action is DENY exactly when isHighRisk holds, and the
stored record has status FLAGGED exactly when its risk score at creation
reaches 0.7, otherwise PENDING. -/
theorem highRisk_action_status_aligned (cfg : Config)
    (dist : ℚ × ℚ → ℚ × ℚ → ℚ) (model : Option (List ℚ → ℚ)) (st : KVState)
    (env : Env) (tx : RequestBody) :
    (checkEndpoint cfg dist model st env tx).response.isHighRisk =
      decide ((0.7 : ℚ) ≤ (checkEndpoint cfg dist model st env tx).response.riskScore) ∧
    (checkEndpoint cfg dist model st env tx).response.recommendedAction =
      (if (checkEndpoint cfg dist model st env tx).response.isHighRisk
        then "DENY" else "ALLOW") ∧
    (checkEndpoint cfg dist model st env tx).record.status =
      (if (0.7 : ℚ) ≤ (checkEndpoint cfg dist model st env tx).record.riskScore
        then "FLAGGED" else "PENDING") ∧
    (checkEndpoint cfg dist model st env tx).record.riskScore =
      (checkEndpoint cfg dist model st env tx).response.riskScore := by
  refine ⟨rfl, ?_, rfl, rfl⟩
  show (if (0.7 : ℚ) ≤ _ then "DENY" else "ALLOW") = _
  rcases le_or_lt (0.7 : ℚ)
      ((detectFraud cfg dist st env tx).2.riskScore * 0.6 +
        predictRisk model (detectFraud cfg dist st env tx).1 env tx * 0.4)
      with h | h
  · rw [if_pos h]
    show _ = (if (decide _ : Bool) then _ else _)
    rw [decide_eq_true h]
    rfl
  · rw [if_neg (not_le.mpr h)]
    show _ = (if (decide _ : Bool) then _ else _)
    rw [decide_eq_false (not_le.mpr h)]
    rfl

/-- C6: checkVelocity adds the current transaction to the velocity
sorted set before reading the window, so the transaction is counted in
its own per-minute count; when exactly maxVelocityPerMinute entries
already lie in the last 60 seconds and the new member is fresh, the
per-minute rule fires with contribution 0.8, and the new sample is in
the stored window afterwards. -/
theorem velocity_counts_own_sample (cfg : Config) (st : KVState) (now : ℤ)
    (userId : String) (amount : ℚ)
    (hfresh : (amount, now) ∉ (st.velocity userId).map Prod.fst)
    (hcount : (zrangebyscore (st.velocity userId) (now - 60000) now).length =
      cfg.maxVelocityPerMinute) :
    (checkVelocity cfg st now userId amount).2 =
      ⟨0.8, some "High transaction velocity detected (per minute)"⟩ ∧
    (amount, now) ∈ zrangebyscore
      ((checkVelocity cfg st now userId amount).1.velocity userId)
      (now - 60000) now := by
  have hz : zadd (st.velocity userId) now (amount, now) =
      st.velocity userId ++ [((amount, now), now)] :=
    zadd_of_fresh _ _ _ hfresh
  have hsingle : zrangebyscore [((amount, now), now)] (now - 60000) now =
      [(amount, now)] := by
    unfold zrangebyscore
    have : now - 60000 ≤ now ∧ now ≤ now := by omega
    simp [this]
  have hrange : zrangebyscore (zadd (st.velocity userId) now (amount, now))
      (now - 60000) now =
      zrangebyscore (st.velocity userId) (now - 60000) now ++ [(amount, now)] := by
    rw [hz, zrangebyscore_append, hsingle]
  have hlen : cfg.maxVelocityPerMinute <
      (zrangebyscore (zadd (st.velocity userId) now (amount, now))
        (now - 60000) now).length := by
    rw [hrange, List.length_append, hcount]
    simp
  constructor
  · unfold checkVelocity
    dsimp only
    rw [if_pos hlen]
  · rw [checkVelocity_state, hrange]
    exact List.mem_append_right _ (List.mem_singleton.mpr rfl)

theorem velocity_counts_own_sample_witness :
    (checkVelocity defaultConfig
        { kvEmpty with velocity := fun k =>
            if k = "u1" then
              [((1000, 999950000), 999950000), ((1000, 999960000), 999960000),
               ((1000, 999970000), 999970000), ((1000, 999980000), 999980000),
               ((1000, 999990000), 999990000)]
            else [] }
        1000000000 "u1" 2000).2 =
      ⟨0.8, some "High transaction velocity detected (per minute)"⟩ ∧
    ((2000 : ℚ), (1000000000 : ℤ)) ∈ zrangebyscore
      ((checkVelocity defaultConfig
          { kvEmpty with velocity := fun k =>
              if k = "u1" then
                [((1000, 999950000), 999950000), ((1000, 999960000), 999960000),
                 ((1000, 999970000), 999970000), ((1000, 999980000), 999980000),
                 ((1000, 999990000), 999990000)]
              else [] }
          1000000000 "u1" 2000).1.velocity "u1")
      (1000000000 - 60000) 1000000000 :=
  velocity_counts_own_sample defaultConfig
    { kvEmpty with velocity := fun k =>
        if k = "u1" then
          [((1000, 999950000), 999950000), ((1000, 999960000), 999960000),
           ((1000, 999970000), 999970000), ((1000, 999980000), 999980000),
           ((1000, 999990000), 999990000)]
        else [] }
    1000000000 "u1" 2000 (by decide) (by decide)

/-- C7 counterexample: with a stored previous location and a reported
distance above 100 km, checkGeoRisk returns early, so the stored
last-known geolocation still holds the previous coordinates and not the
coordinates of the scored transaction, refuting the claim that the geo
key is overwritten on every scored transaction that carries a
location. -/
theorem geo_not_overwritten_on_fire_cex :
    (checkGeoRisk (fun _ _ => 525)
        { kvEmpty with geo := fun k =>
            if k = "u1" then some (9.0765, 7.3986) else none }
        "u1" 6.5244 3.3792).1.geo "u1" = some (9.0765, 7.3986) ∧
    (checkGeoRisk (fun _ _ => 525)
        { kvEmpty with geo := fun k =>
            if k = "u1" then some (9.0765, 7.3986) else none }
        "u1" 6.5244 3.3792).1.geo "u1" ≠ some (6.5244, 3.3792) := by
  constructor
  · norm_num [checkGeoRisk, kvEmpty]
  · norm_num [checkGeoRisk, kvEmpty]

/-- C7 amended: checkGeoRisk overwrites the stored geolocation exactly
when the geo-jump rule does not fire: the key is set to the new
coordinates when no previous location exists or the distance is at most
100 km, and keeps the previous coordinates when the rule fires. -/
theorem geo_overwrite_iff_rule_silent (dist : ℚ × ℚ → ℚ × ℚ → ℚ)
    (st : KVState) (userId : String) (latitude longitude : ℚ) :
    (checkGeoRisk dist st userId latitude longitude).1.geo userId =
      (match st.geo userId with
       | some lastLocation =>
           if 100 < dist (latitude, longitude) lastLocation
           then some lastLocation
           else some (latitude, longitude)
       | none => some (latitude, longitude)) := by
  unfold checkGeoRisk
  rcases hg : st.geo userId with _ | lastLocation
  · simp
  · dsimp only
    split_ifs with hd
    · exact hg
    · simp

/-- Redis state for the velocity counterexample: 21 samples for user u1,
all within the last minute before timestamp 1000000000. -/
def burstState : KVState :=
  { kvEmpty with velocity := fun k =>
      if k = "u1" then
        [((1000, 999960000), 999960000), ((1000, 999961000), 999961000),
         ((1000, 999962000), 999962000), ((1000, 999963000), 999963000),
         ((1000, 999964000), 999964000), ((1000, 999965000), 999965000),
         ((1000, 999966000), 999966000), ((1000, 999967000), 999967000),
         ((1000, 999968000), 999968000), ((1000, 999969000), 999969000),
         ((1000, 999970000), 999970000), ((1000, 999971000), 999971000),
         ((1000, 999972000), 999972000), ((1000, 999973000), 999973000),
         ((1000, 999974000), 999974000), ((1000, 999975000), 999975000),
         ((1000, 999976000), 999976000), ((1000, 999977000), 999977000),
         ((1000, 999978000), 999978000), ((1000, 999979000), 999979000),
         ((1000, 999980000), 999980000)]
      else [] }

/-- C3 counterexample: a user whose 24-hour amount history is the single
amount 5000 submits amount 200000, which exceeds ten times the history
mean and exceeds 100000; yet detectFraud returns no amount-spike reason
and rule score 0, because detectFraud never invokes
checkAmountPatterns. -/
theorem amount_spike_never_scored_cex :
    0 < ((zrangebyscore
        (({ kvEmpty with amountHist := fun k =>
            if k = "u1" then [((5000, 999000000), 999000000)] else [] } :
            KVState).amountHist "u1")
        (1000000000 - 86400000) 1000000000).map Prod.fst).length ∧
    (((zrangebyscore
        (({ kvEmpty with amountHist := fun k =>
            if k = "u1" then [((5000, 999000000), 999000000)] else [] } :
            KVState).amountHist "u1")
        (1000000000 - 86400000) 1000000000).map Prod.fst).sum /
      ((((zrangebyscore
        (({ kvEmpty with amountHist := fun k =>
            if k = "u1" then [((5000, 999000000), 999000000)] else [] } :
            KVState).amountHist "u1")
        (1000000000 - 86400000) 1000000000).map Prod.fst).length : ℚ))) * 10
      < 200000 ∧
    (100000 : ℚ) < 200000 ∧
    "Transaction amount significantly higher than usual pattern" ∉
      (detectFraud defaultConfig (fun _ _ => 0)
        { kvEmpty with amountHist := fun k =>
            if k = "u1" then [((5000, 999000000), 999000000)] else [] }
        ⟨1000000000, 12, 3⟩ ⟨"u1", 200000, "TRANSFER", "d1", none⟩).2.reasons ∧
    (detectFraud defaultConfig (fun _ _ => 0)
        { kvEmpty with amountHist := fun k =>
            if k = "u1" then [((5000, 999000000), 999000000)] else [] }
        ⟨1000000000, 12, 3⟩ ⟨"u1", 200000, "TRANSFER", "d1", none⟩).2.riskScore
      = 0 := by
  refine ⟨by norm_num [zrangebyscore, kvEmpty], ?_, by norm_num, ?_, ?_⟩
  · norm_num [zrangebyscore, kvEmpty]
  · norm_num [detectFraud, checkVelocity, checkDeviceRisk, checkGeoRisk,
      applyCheck, zadd, zrangebyscore, sadd, kvEmpty, defaultConfig]
  · norm_num [detectFraud, checkVelocity, checkDeviceRisk, checkGeoRisk,
      applyCheck, zadd, zrangebyscore, sadd, kvEmpty, defaultConfig]

/-- C3 amended: checkAmountPatterns, when invoked on a non-empty 24-hour
window whose mean times ten is below the amount and with the amount above
100000, returns contribution 0.7 with the amount-spike reason; but
detectFraud never invokes checkAmountPatterns, so the reason never
appears in any scored transaction's reasons list. -/
theorem amount_spike_rule_dormant (st : KVState) (now : ℤ) (userId : String)
    (amount : ℚ)
    (h1 : 0 < ((zrangebyscore (st.amountHist userId) (now - 86400000) now).map
      Prod.fst).length)
    (h2 : (((zrangebyscore (st.amountHist userId) (now - 86400000) now).map
        Prod.fst).sum /
      (((zrangebyscore (st.amountHist userId) (now - 86400000) now).map
        Prod.fst).length : ℚ)) * 10 < amount)
    (h3 : (100000 : ℚ) < amount) :
    (checkAmountPatterns st now userId amount).2 =
      ⟨0.7, some "Transaction amount significantly higher than usual pattern"⟩ ∧
    ∀ (cfg : Config) (dist : ℚ × ℚ → ℚ × ℚ → ℚ) (st2 : KVState) (env : Env)
      (tx : RequestBody),
      "Transaction amount significantly higher than usual pattern" ∉
        (detectFraud cfg dist st2 env tx).2.reasons := by
  constructor
  · unfold checkAmountPatterns
    dsimp only
    rw [if_pos h1, if_pos ⟨h2, h3⟩]
  · intro cfg dist st2 env tx hmem
    rcases detectFraud_reasons_subset cfg dist st2 env tx hmem with
      h | h | h | h | h | h <;> exact absurd h (by decide)

theorem amount_spike_rule_dormant_witness :
    (checkAmountPatterns
        { kvEmpty with amountHist := fun k =>
            if k = "u1" then [((5000, 999000000), 999000000)] else [] }
        1000000000 "u1" 200000).2 =
      ⟨0.7, some "Transaction amount significantly higher than usual pattern"⟩ ∧
    ∀ (cfg : Config) (dist : ℚ × ℚ → ℚ × ℚ → ℚ) (st2 : KVState) (env : Env)
      (tx : RequestBody),
      "Transaction amount significantly higher than usual pattern" ∉
        (detectFraud cfg dist st2 env tx).2.reasons :=
  amount_spike_rule_dormant
    { kvEmpty with amountHist := fun k =>
        if k = "u1" then [((5000, 999000000), 999000000)] else [] }
    1000000000 "u1" 200000
    (by norm_num [zrangebyscore, kvEmpty])
    (by norm_num [zrangebyscore, kvEmpty])
    (by norm_num)

/-- C4 counterexample: a state in which, after the write, both the
per-minute count (22 > 5) and the per-hour count (22 > 20) exceed their
thresholds; checkVelocity returns only the per-minute check, detectFraud
appends only the per-minute reason, and only 0.8 is added to the rule
score, refuting the claim that both reasons are appended and both
contributions added. -/
theorem velocity_both_conditions_single_reason_cex :
    defaultConfig.maxVelocityPerMinute <
      (zrangebyscore (zadd (burstState.velocity "u1") 1000000000
        (2000, 1000000000)) (1000000000 - 60000) 1000000000).length ∧
    20 < (zrangebyscore (zadd (burstState.velocity "u1") 1000000000
        (2000, 1000000000)) (1000000000 - 3600000) 1000000000).length ∧
    (checkVelocity defaultConfig burstState 1000000000 "u1" 2000).2 =
      ⟨0.8, some "High transaction velocity detected (per minute)"⟩ ∧
    (detectFraud defaultConfig (fun _ _ => 0) burstState ⟨1000000000, 12, 3⟩
        ⟨"u1", 2000, "TRANSFER", "d1", none⟩).2.reasons =
      ["High transaction velocity detected (per minute)"] ∧
    (detectFraud defaultConfig (fun _ _ => 0) burstState ⟨1000000000, 12, 3⟩
        ⟨"u1", 2000, "TRANSFER", "d1", none⟩).2.riskScore = 0.8 := by
  refine ⟨by decide, by decide, ?_, ?_, ?_⟩
  · norm_num [checkVelocity, zadd, zrangebyscore, burstState, kvEmpty,
      defaultConfig]
  · norm_num [detectFraud, checkVelocity, checkDeviceRisk, checkGeoRisk,
      applyCheck, zadd, zrangebyscore, sadd, burstState, kvEmpty,
      defaultConfig]
  · norm_num [detectFraud, checkVelocity, checkDeviceRisk, checkGeoRisk,
      applyCheck, zadd, zrangebyscore, sadd, burstState, kvEmpty,
      defaultConfig]

/-- C4 amended: when both the per-minute and the per-hour velocity
conditions hold after the write, checkVelocity returns early with only
the per-minute reason and the single contribution 0.8; the per-hour
branch is never reached, so the two contributions are not both added. -/
theorem velocity_perMinute_shadows_perHour (cfg : Config) (st : KVState)
    (now : ℤ) (userId : String) (amount : ℚ)
    (hmin : cfg.maxVelocityPerMinute <
      (zrangebyscore (zadd (st.velocity userId) now (amount, now))
        (now - 60000) now).length)
    (hhour : 20 < (zrangebyscore (zadd (st.velocity userId) now (amount, now))
        (now - 3600000) now).length) :
    (checkVelocity cfg st now userId amount).2 =
      ⟨0.8, some "High transaction velocity detected (per minute)"⟩ ∧
    (checkVelocity cfg st now userId amount).2.score ≠ 0.8 + 0.6 := by
  have hres : (checkVelocity cfg st now userId amount).2 =
      ⟨0.8, some "High transaction velocity detected (per minute)"⟩ := by
    unfold checkVelocity
    dsimp only
    rw [if_pos hmin]
  refine ⟨hres, ?_⟩
  rw [hres]
  norm_num

theorem velocity_perMinute_shadows_perHour_witness :
    (checkVelocity defaultConfig burstState 1000000000 "u1" 2000).2 =
      ⟨0.8, some "High transaction velocity detected (per minute)"⟩ ∧
    (checkVelocity defaultConfig burstState 1000000000 "u1" 2000).2.score ≠
      0.8 + 0.6 :=
  velocity_perMinute_shadows_perHour defaultConfig burstState 1000000000
    "u1" 2000 (by decide) (by decide)

/-- C5 counterexample: with enableMLModel set to false and the model
unavailable, a transaction of amount 600000 scores rule score 0 but
final risk score 7/25 = 0.28, because the endpoint still invokes
predictRisk, whose fallback returns 0.7; the claim that the final score
then equals ruleWeight times the rule score (here 0.6 * 0 = 0) fails. -/
theorem enableMLModel_false_no_bypass_cex :
    (detectFraud { defaultConfig with enableMLModel := false }
        (fun _ _ => 0) kvEmpty ⟨1000000000, 12, 3⟩
        ⟨"u1", 600000, "TRANSFER", "d1", none⟩).2.riskScore = 0 ∧
    (checkEndpoint { defaultConfig with enableMLModel := false }
        (fun _ _ => 0) none kvEmpty ⟨1000000000, 12, 3⟩
        ⟨"u1", 600000, "TRANSFER", "d1", none⟩).response.riskScore = 7/25 ∧
    (7/25 : ℚ) ≠ 0.6 * 0 := by
  refine ⟨?_, ?_, by norm_num⟩
  · norm_num [detectFraud, checkVelocity, checkDeviceRisk, checkGeoRisk,
      applyCheck, zadd, zrangebyscore, sadd, kvEmpty, defaultConfig]
  · norm_num [checkEndpoint, detectFraud, checkVelocity, checkDeviceRisk,
      checkGeoRisk, applyCheck, zadd, zrangebyscore, sadd, kvEmpty,
      defaultConfig, predictRisk, fallbackRiskScore]

/-- C5 amended: the enableMLModel flag is never consulted by the scoring
path, so the /check outcome is identical whatever its value; and with
the model unavailable the score used in fusion is the deterministic
amount-bucket fallback, not 0. -/
theorem enableMLModel_ignored_and_fallback_used :
    (∀ (cfg : Config) (dist : ℚ × ℚ → ℚ × ℚ → ℚ)
      (model : Option (List ℚ → ℚ)) (st : KVState) (env : Env)
      (tx : RequestBody) (b : Bool),
      checkEndpoint { cfg with enableMLModel := b } dist model st env tx =
        checkEndpoint cfg dist model st env tx) ∧
    (∀ (st : KVState) (env : Env) (tx : RequestBody),
      predictRisk none st env tx = fallbackRiskScore tx.amount) := by
  constructor
  · intro cfg dist model st env tx b
    cases cfg
    rfl
  · intro st env tx
    rfl

/-- C8 counterexample: for a user with no transaction history and a new
device, preprocessFeatures produces raw zeros for the history-derived
features, so their z-score-normalized values are minus mean over std
rather than 0; in particular the avgAmountLast24h entry is -1/4, not 0,
refuting the claim that history-derived features normalize to 0 when the
history is empty. -/
theorem empty_history_feature_not_zero_cex :
    preprocessFeatures kvEmpty ⟨1000000000, 12, 3⟩
        ⟨"u1", 5000, "TRANSFER", "d1", none⟩ =
      [-9/40, 0, 0, 3, -12/5, -25/32, -1/4, -4/5, -24/95, -11/4] ∧
    (-1/4 : ℚ) ≠ 0 := by
  constructor
  · norm_num [preprocessFeatures, FEATURE_STATS, kvEmpty]
  · norm_num

/-- C8 amended: for a user with no transaction history and no device
statistics, the raw history-derived features are 0 (and isNewDevice is
1), so each normalized entry equals (0 - mean) / std from FEATURE_STATS
(3 for isNewDevice), not 0; the vector still has length 10. -/
theorem empty_history_features_shift (st : KVState) (env : Env)
    (tx : RequestBody)
    (hdev : st.device tx.deviceId = [])
    (h24 : st.tx24h tx.userId = [])
    (h7 : st.tx7d tx.userId = [])
    (hud : st.userDevices24h tx.userId = []) :
    preprocessFeatures st env tx =
      [(tx.amount - 50000) / 200000, ((env.hour : ℚ) - 12) / 6.93,
       ((env.dayOfWeek : ℚ) - 3) / 2, 3, -12/5, -25/32, -1/4, -4/5,
       -24/95, -11/4] ∧
    (preprocessFeatures st env tx).length = 10 := by
  have hmain : preprocessFeatures st env tx =
      [(tx.amount - 50000) / 200000, ((env.hour : ℚ) - 12) / 6.93,
       ((env.dayOfWeek : ℚ) - 3) / 2, 3, -12/5, -25/32, -1/4, -4/5,
       -24/95, -11/4] := by
    unfold preprocessFeatures
    rw [hdev, h24, h7, hud]
    norm_num [FEATURE_STATS]
  exact ⟨hmain, by rw [hmain]; rfl⟩

theorem empty_history_features_shift_witness :
    preprocessFeatures kvEmpty ⟨0, 12, 3⟩
        ⟨"u1", 50000, "TRANSFER", "d1", none⟩ =
      [((50000 : ℚ) - 50000) / 200000, (((12 : Nat) : ℚ) - 12) / 6.93,
       (((3 : Nat) : ℚ) - 3) / 2, 3, -12/5, -25/32, -1/4, -4/5,
       -24/95, -11/4] ∧
    (preprocessFeatures kvEmpty ⟨0, 12, 3⟩
        ⟨"u1", 50000, "TRANSFER", "d1", none⟩).length = 10 :=
  empty_history_features_shift kvEmpty ⟨0, 12, 3⟩
    ⟨"u1", 50000, "TRANSFER", "d1", none⟩ rfl rfl rfl rfl

/-- C9: a /check request whose amount is 0, or whose location carries
latitude 0 or longitude 0, is rejected by the validation middleware with
a 400 error before the handler runs: no Redis state is written, no
record is persisted, and no scoring response is produced, because the
validator treats falsy field values as missing. -/
theorem falsy_zero_rejected (cfg : Config) (dist : ℚ × ℚ → ℚ × ℚ → ℚ)
    (model : Option (List ℚ → ℚ)) (st : KVState) (env : Env)
    (b : RequestBody)
    (h : b.amount = 0 ∨ ∃ loc, b.location = some loc ∧ (loc.1 = 0 ∨ loc.2 = 0)) :
    (checkRoute cfg dist model st env b).httpStatus = 400 ∧
    (checkRoute cfg dist model st env b).state = st ∧
    (checkRoute cfg dist model st env b).saved = none ∧
    (checkRoute cfg dist model st env b).response = none := by
  have hval : ∃ e, validateTransaction b = some e := by
    rcases h with hz | ⟨loc, hloc, hcoord⟩
    · refine ⟨"Missing required fields", ?_⟩
      unfold validateTransaction
      rw [if_pos (Or.inr (Or.inl hz))]
    · by_cases hmiss : b.userId = "" ∨ b.amount = 0 ∨
        b.transactionType = "" ∨ b.deviceId = ""
      · refine ⟨"Missing required fields", ?_⟩
        unfold validateTransaction
        rw [if_pos hmiss]
      · refine ⟨"Invalid location format", ?_⟩
        unfold validateTransaction
        rw [if_neg hmiss, hloc]
        dsimp only
        rw [if_pos hcoord]
  obtain ⟨e, he⟩ := hval
  unfold checkRoute
  rw [he]
  exact ⟨rfl, rfl, rfl, rfl⟩

theorem falsy_zero_rejected_witness :
    (checkRoute defaultConfig (fun _ _ => 0) none kvEmpty ⟨0, 12, 3⟩
        ⟨"u1", 0, "TRANSFER", "d1", some (6.5244, 3.3792)⟩).httpStatus = 400 ∧
    (checkRoute defaultConfig (fun _ _ => 0) none kvEmpty ⟨0, 12, 3⟩
        ⟨"u1", 0, "TRANSFER", "d1", some (6.5244, 3.3792)⟩).state = kvEmpty ∧
    (checkRoute defaultConfig (fun _ _ => 0) none kvEmpty ⟨0, 12, 3⟩
        ⟨"u1", 0, "TRANSFER", "d1", some (6.5244, 3.3792)⟩).saved = none ∧
    (checkRoute defaultConfig (fun _ _ => 0) none kvEmpty ⟨0, 12, 3⟩
        ⟨"u1", 0, "TRANSFER", "d1", some (6.5244, 3.3792)⟩).response = none :=
  falsy_zero_rejected defaultConfig (fun _ _ => 0) none kvEmpty ⟨0, 12, 3⟩
    ⟨"u1", 0, "TRANSFER", "d1", some (6.5244, 3.3792)⟩ (Or.inl rfl)

/-- C10: on /report-fraud for an existing transaction with the model not
loaded, the status change is persisted first and the model update then
throws, so the endpoint answers 500 while the stored record already
carries the new DENIED or APPROVED status, which is not rolled back; the
model version counter is not incremented. -/
theorem report_fraud_persists_despite_ml_error
    (db : String → Option TxRecord) (version : Nat) (transactionId : String)
    (wasActuallyFraud : Bool) (tx : TxRecord)
    (hid : transactionId ≠ "")
    (hdb : db transactionId = some tx) :
    (reportFraud false db version transactionId wasActuallyFraud).httpStatus
      = 500 ∧
    (reportFraud false db version transactionId wasActuallyFraud).db
        transactionId =
      some { tx with status := if wasActuallyFraud then "DENIED" else "APPROVED" } ∧
    (reportFraud false db version transactionId wasActuallyFraud).version
      = version := by
  unfold reportFraud
  rw [if_neg hid, hdb]
  dsimp only
  simp

theorem report_fraud_persists_despite_ml_error_witness :
    (reportFraud false
        (fun id => if id = "t1" then some ⟨0, "PENDING"⟩ else none)
        7 "t1" true).httpStatus = 500 ∧
    (reportFraud false
        (fun id => if id = "t1" then some ⟨0, "PENDING"⟩ else none)
        7 "t1" true).db "t1" =
      some { riskScore := (0 : ℚ),
             status := if true then "DENIED" else "APPROVED" } ∧
    (reportFraud false
        (fun id => if id = "t1" then some ⟨0, "PENDING"⟩ else none)
        7 "t1" true).version = 7 :=
  report_fraud_persists_despite_ml_error
    (fun id => if id = "t1" then some ⟨0, "PENDING"⟩ else none)
    7 "t1" true ⟨0, "PENDING"⟩ (by decide) (by decide)
